import Mathlib

/-!
Verification of the OBD2 connector subsystem (`utils/obd2_connector.py`).

The Python class `OBD2Connector` is shallowly embedded below.  Pure string and
hex processing is translated into executable Lean functions; the stateful
parts (serial link, supported-PID dictionary, connected flag) are modelled by
an explicit `ConnState` record plus a response environment
`lines : String → List String` giving, for each written command, the stripped
lines that arrive on the serial port before the prompt or the timeout.  Each
operation additionally returns the list of commands written to the link, so
that "no serial request is issued" is a provable statement.  Machine bytes are
`Nat` values below 256 produced from hex pairs; the Python float arithmetic of
the PID formulas is modelled over `ℚ`.
-/

namespace OBD2

/-- Value of one hex digit, as accepted by Python `int(_, 16)` on the
space-stripped payloads handled here; `none` models the `ValueError`. -/
def hexDigitVal (c : Char) : Option Nat :=
  if '0' ≤ c ∧ c ≤ '9' then some (c.toNat - '0'.toNat)
  else if 'a' ≤ c ∧ c ≤ 'f' then some (c.toNat - 'a'.toNat + 10)
  else if 'A' ≤ c ∧ c ≤ 'F' then some (c.toNat - 'A'.toNat + 10)
  else none

/-- Value of a two-character hex pair (`int(hex_pair, 16)`). -/
def hexPairVal (c1 c2 : Char) : Option Nat := do
  let a ← hexDigitVal c1
  let b ← hexDigitVal c2
  pure (16 * a + b)

/-- The byte-conversion loop shared by `_decode_pid` and `_get_supported_pids`:
`for i in range(0, len(data), 2): if i+1 < len(data): int(data[i:i+2], 16)`.
A trailing odd character is silently dropped; a malformed pair raises, which
is modelled as `none`. -/
def hexToBytes : List Char → Option (List Nat)
  | [] => some []
  | [_] => some []
  | c1 :: c2 :: rest => do
      let v ← hexPairVal c1 c2
      let vs ← hexToBytes rest
      pure (v :: vs)

/-- Uppercase hex digit character. -/
def hexDigitChar (n : Nat) : Char :=
  if n < 10 then Char.ofNat ('0'.toNat + n) else Char.ofNat ('A'.toNat + n - 10)

/-- Uppercase hex digits of `n`, most significant first (no padding). -/
def natToHexCore (n : Nat) : List Char :=
  if _h : n < 16 then [hexDigitChar n]
  else natToHexCore (n / 16) ++ [hexDigitChar (n % 16)]
  termination_by n
  decreasing_by
    exact Nat.div_lt_self (by omega) (by omega)

/-- Python `format(n, '02X')`: uppercase hex, left padded with zeros to width 2. -/
def toHex2 (n : Nat) : String :=
  let cs := natToHexCore n
  String.mk (if cs.length < 2 then List.replicate (2 - cs.length) '0' ++ cs else cs)

/-- Whether `sub` starts `cs`. -/
def charsHasPfx : List Char → List Char → Bool
  | [], _ => true
  | _ :: _, [] => false
  | a :: as, b :: bs => a == b && charsHasPfx as bs

/-- Whether `sub` occurs contiguously inside `cs` (Python `sub in s`). -/
def charsHasSub (sub : List Char) : List Char → Bool
  | [] => charsHasPfx sub []
  | c :: cs => charsHasPfx sub (c :: cs) || charsHasSub sub cs

/-- Python substring containment `sub in s`. -/
def strHasSub (sub s : String) : Bool :=
  charsHasSub sub.toList s.toList

/-- Python `s.find(sub)`: index of the first occurrence, `none` for `-1`. -/
def findSubIdx (sub : List Char) : List Char → Option Nat
  | [] => if charsHasPfx sub [] then some 0 else none
  | c :: cs =>
      if charsHasPfx sub (c :: cs) then some 0
      else (findSubIdx sub cs).map (· + 1)

/-- Python `s.replace(" ", "")`. -/
def stripSpaces (cs : List Char) : List Char :=
  cs.filter (fun c => c ≠ ' ')

/-- Keys of the module-level `ERROR_CODES` dictionary, in source order. -/
def errorCodeKeys : List String :=
  ["7F", "NO DATA", "BUS INIT: ERROR", "?", "SEARCHING", "CAN ERROR"]

/-- Decoded value, Python `Union[float, int, str]` collapsed to `ℚ` plus text. -/
inductive PidValue
  | num (q : ℚ)
  | txt (s : String)
deriving DecidableEq, Repr

/-- The `{name, value, unit}` dictionary returned by `_decode_pid`. -/
structure DecodeResult where
  name : String
  value : PidValue
  unit : String
deriving DecidableEq, Repr

/-- The default dictionary `_decode_pid` returns when its body raises
(note the source comment "Return a default result instead of None"). -/
def errorResult (pid : String) : DecodeResult :=
  { name := "PID " ++ pid, value := .num 0, unit := "error" }

/-- Space-separated uppercase hex rendering used by the unrecognized-PID branch
(`' '.join([format(b, '02X') for b in data_bytes])`). -/
def bytesToHexText : List Nat → String
  | [] => ""
  | [b] => toHex2 b
  | b :: rest => toHex2 b ++ " " ++ bytesToHexText rest

/-- The `if/elif` ladder of `_decode_pid` over the already-converted byte list;
`none` models an `IndexError` from `data_bytes[0]` / `data_bytes[1]`. -/
def decodeFromBytes (pid : String) (bs : List Nat) : Option DecodeResult :=
  if pid = "04" then do
    let a : ℕ ← bs[0]?
    pure ⟨"Engine Load", .num ((a : ℚ) * 100 / 255), "%"⟩
  else if pid = "05" then do
    let a : ℕ ← bs[0]?
    pure ⟨"Coolant Temperature", .num ((a : ℚ) - 40), "°C"⟩
  else if pid = "06" then do
    let a : ℕ ← bs[0]?
    pure ⟨"Short Term Fuel Trim - Bank 1", .num (((a : ℚ) - 128) * 100 / 128), "%"⟩
  else if pid = "07" then do
    let a : ℕ ← bs[0]?
    pure ⟨"Long Term Fuel Trim - Bank 1", .num (((a : ℚ) - 128) * 100 / 128), "%"⟩
  else if pid = "08" then do
    let a : ℕ ← bs[0]?
    pure ⟨"Short Term Fuel Trim - Bank 2", .num (((a : ℚ) - 128) * 100 / 128), "%"⟩
  else if pid = "09" then do
    let a : ℕ ← bs[0]?
    pure ⟨"Long Term Fuel Trim - Bank 2", .num (((a : ℚ) - 128) * 100 / 128), "%"⟩
  else if pid = "0A" then do
    let a : ℕ ← bs[0]?
    pure ⟨"Fuel Pressure", .num ((a : ℚ) * 3), "kPa"⟩
  else if pid = "0B" then do
    let a : ℕ ← bs[0]?
    pure ⟨"Intake Manifold Pressure", .num (a : ℚ), "kPa"⟩
  else if pid = "0C" then do
    let a : ℕ ← bs[0]?
    let b : ℕ ← bs[1]?
    pure ⟨"Engine RPM", .num (((a : ℚ) * 256 + (b : ℚ)) / 4), "rpm"⟩
  else if pid = "0D" then do
    let a : ℕ ← bs[0]?
    pure ⟨"Vehicle Speed", .num (a : ℚ), "km/h"⟩
  else if pid = "0E" then do
    let a : ℕ ← bs[0]?
    pure ⟨"Timing Advance", .num (((a : ℚ) - 128) / 2), "°"⟩
  else if pid = "0F" then do
    let a : ℕ ← bs[0]?
    pure ⟨"Intake Air Temperature", .num ((a : ℚ) - 40), "°C"⟩
  else if pid = "10" then do
    let a : ℕ ← bs[0]?
    let b : ℕ ← bs[1]?
    pure ⟨"Mass Air Flow", .num (((a : ℚ) * 256 + (b : ℚ)) / 100), "g/s"⟩
  else if pid = "11" then do
    let a : ℕ ← bs[0]?
    pure ⟨"Throttle Position", .num ((a : ℚ) * 100 / 255), "%"⟩
  else if pid = "1F" then do
    let a : ℕ ← bs[0]?
    let b : ℕ ← bs[1]?
    pure ⟨"Run Time Since Engine Start", .num ((a : ℚ) * 256 + (b : ℚ)), "s"⟩
  else
    some ⟨"PID " ++ pid, .txt (bytesToHexText bs), "hex"⟩

/-- `OBD2Connector._decode_pid`: hex conversion plus the formula ladder inside
one `try`; any failure is caught and the default error dictionary returned. -/
def decodePid (pid : String) (data : String) : DecodeResult :=
  match (hexToBytes data.toList).bind (decodeFromBytes pid) with
  | some r => r
  | none => errorResult pid

/-- `OBD2Connector._parse_pid_response`: reject sentinel error strings, strip
spaces, require (or locate) the `"41" + pid` echo prefix, and return the data
part after the first four characters. -/
def parsePidResponse (response pid : String) : Option String :=
  if response.toList.isEmpty
      || errorCodeKeys.any (fun k => strHasSub k response) then none
  else
    let r := stripSpaces response.toList
    if r.isEmpty then none
    else
      let pfx := '4' :: '1' :: pid.toList
      let r2 : Option (List Char) :=
        if charsHasPfx pfx r then some r
        else match findSubIdx pfx r with
          | some i => some (r.drop i)
          | none => none
      match r2 with
      | some cs => some (String.mk (cs.drop 4))
      | none => none

/-- The module-level `DTC_LETTERS` lookup with the `"P"` default used by
`_parse_dtcs` (`DTC_LETTERS.get(dtc_hex[0], "P")`). -/
def dtcLetter (c : Char) : String :=
  if c = '0' then "P"
  else if c = '1' then "C"
  else if c = '2' then "B"
  else if c = '3' then "U"
  else "P"

/-- How `_parse_dtcs` renders one four-character slot: the mapped letter of the
first nibble followed by the remaining three characters unchanged. -/
def decodeDtcSlot (c0 c1 c2 c3 : Char) : String :=
  dtcLetter c0 ++ String.mk [c1, c2, c3]

/-- The inline dictionary of `OBD2Connector._get_dtc_description`. -/
def dtcDescriptions : List (String × String) := [
  ("P0100", "Mass or Volume Air Flow Circuit Malfunction"),
  ("P0101", "Mass or Volume Air Flow Circuit Range/Performance Problem"),
  ("P0102", "Mass or Volume Air Flow Circuit Low Input"),
  ("P0103", "Mass or Volume Air Flow Circuit High Input"),
  ("P0104", "Mass or Volume Air Flow Circuit Intermittent"),
  ("P0105", "Manifold Absolute Pressure/Barometric Pressure Circuit Malfunction"),
  ("P0106", "Manifold Absolute Pressure/Barometric Pressure Circuit Range/Performance Problem"),
  ("P0107", "Manifold Absolute Pressure/Barometric Pressure Circuit Low Input"),
  ("P0108", "Manifold Absolute Pressure/Barometric Pressure Circuit High Input"),
  ("P0109", "Manifold Absolute Pressure/Barometric Pressure Circuit Intermittent"),
  ("P0110", "Intake Air Temperature Circuit Malfunction"),
  ("P0111", "Intake Air Temperature Circuit Range/Performance Problem"),
  ("P0112", "Intake Air Temperature Circuit Low Input"),
  ("P0113", "Intake Air Temperature Circuit High Input"),
  ("P0114", "Intake Air Temperature Circuit Intermittent"),
  ("P0115", "Engine Coolant Temperature Circuit Malfunction"),
  ("P0116", "Engine Coolant Temperature Circuit Range/Performance Problem"),
  ("P0117", "Engine Coolant Temperature Circuit Low Input"),
  ("P0118", "Engine Coolant Temperature Circuit High Input"),
  ("P0119", "Engine Coolant Temperature Circuit Intermittent"),
  ("P0120", "Throttle/Pedal Position Sensor/Switch A Circuit Malfunction"),
  ("P0121", "Throttle/Pedal Position Sensor/Switch A Circuit Range/Performance Problem"),
  ("P0122", "Throttle/Pedal Position Sensor/Switch A Circuit Low Input"),
  ("P0123", "Throttle/Pedal Position Sensor/Switch A Circuit High Input"),
  ("P0124", "Throttle/Pedal Position Sensor/Switch A Circuit Intermittent"),
  ("P0125", "Insufficient Coolant Temperature for Closed Loop Fuel Control"),
  ("P0126", "Insufficient Coolant Temperature for Stable Operation"),
  ("P0127", "Intake Air Temperature Too High"),
  ("P0128", "Coolant Thermostat (Coolant Temperature Below Thermostat Regulating Temperature)"),
  ("P0129", "Barometric Pressure Too Low"),
  ("P0130", "O2 Sensor Circuit Malfunction (Bank 1 Sensor 1)"),
  ("P0131", "O2 Sensor Circuit Low Voltage (Bank 1 Sensor 1)"),
  ("P0132", "O2 Sensor Circuit High Voltage (Bank 1 Sensor 1)"),
  ("P0133", "O2 Sensor Circuit Slow Response (Bank 1 Sensor 1)"),
  ("P0134", "O2 Sensor Circuit No Activity Detected (Bank 1 Sensor 1)"),
  ("P0135", "O2 Sensor Heater Circuit Malfunction (Bank 1 Sensor 1)"),
  ("P0136", "O2 Sensor Circuit Malfunction (Bank 1 Sensor 2)"),
  ("P0137", "O2 Sensor Circuit Low Voltage (Bank 1 Sensor 2)"),
  ("P0138", "O2 Sensor Circuit High Voltage (Bank 1 Sensor 2)"),
  ("P0139", "O2 Sensor Circuit Slow Response (Bank 1 Sensor 2)"),
  ("P0140", "O2 Sensor Circuit No Activity Detected (Bank 1 Sensor 2)"),
  ("P0141", "O2 Sensor Heater Circuit Malfunction (Bank 1 Sensor 2)"),
  ("P0142", "O2 Sensor Circuit Malfunction (Bank 1 Sensor 3)"),
  ("P0143", "O2 Sensor Circuit Low Voltage (Bank 1 Sensor 3)"),
  ("P0144", "O2 Sensor Circuit High Voltage (Bank 1 Sensor 3)"),
  ("P0145", "O2 Sensor Circuit Slow Response (Bank 1 Sensor 3)"),
  ("P0146", "O2 Sensor Circuit No Activity Detected (Bank 1 Sensor 3)"),
  ("P0147", "O2 Sensor Heater Circuit Malfunction (Bank 1 Sensor 3)"),
  ("P0148", "Fuel Delivery Error"),
  ("P0149", "Fuel Timing Error"),
  ("P0150", "O2 Sensor Circuit Malfunction (Bank 2 Sensor 1)"),
  ("P0151", "O2 Sensor Circuit Low Voltage (Bank 2 Sensor 1)"),
  ("P0152", "O2 Sensor Circuit High Voltage (Bank 2 Sensor 1)"),
  ("P0153", "O2 Sensor Circuit Slow Response (Bank 2 Sensor 1)"),
  ("P0154", "O2 Sensor Circuit No Activity Detected (Bank 2 Sensor 1)"),
  ("P0155", "O2 Sensor Heater Circuit Malfunction (Bank 2 Sensor 1)"),
  ("P0156", "O2 Sensor Circuit Malfunction (Bank 2 Sensor 2)"),
  ("P0157", "O2 Sensor Circuit Low Voltage (Bank 2 Sensor 2)"),
  ("P0158", "O2 Sensor Circuit High Voltage (Bank 2 Sensor 2)"),
  ("P0159", "O2 Sensor Circuit Slow Response (Bank 2 Sensor 2)"),
  ("P0160", "O2 Sensor Circuit No Activity Detected (Bank 2 Sensor 2)"),
  ("P0161", "O2 Sensor Heater Circuit Malfunction (Bank 2 Sensor 2)"),
  ("P0162", "O2 Sensor Circuit Malfunction (Bank 2 Sensor 3)"),
  ("P0163", "O2 Sensor Circuit Low Voltage (Bank 2 Sensor 3)"),
  ("P0164", "O2 Sensor Circuit High Voltage (Bank 2 Sensor 3)"),
  ("P0165", "O2 Sensor Circuit Slow Response (Bank 2 Sensor 3)"),
  ("P0166", "O2 Sensor Circuit No Activity Detected (Bank 2 Sensor 3)"),
  ("P0167", "O2 Sensor Heater Circuit Malfunction (Bank 2 Sensor 3)"),
  ("P0168", "Fuel Temperature Too High"),
  ("P0169", "Incorrect Fuel Composition"),
  ("P0170", "Fuel Trim Malfunction (Bank 1)"),
  ("P0171", "System Too Lean (Bank 1)"),
  ("P0172", "System Too Rich (Bank 1)"),
  ("P0173", "Fuel Trim Malfunction (Bank 2)"),
  ("P0174", "System Too Lean (Bank 2)"),
  ("P0175", "System Too Rich (Bank 2)"),
  ("P0176", "Fuel Composition Sensor Circuit Malfunction"),
  ("P0177", "Fuel Composition Sensor Circuit Range/Performance"),
  ("P0178", "Fuel Composition Sensor Circuit Low Input"),
  ("P0179", "Fuel Composition Sensor Circuit High Input"),
  ("P0180", "Fuel Temperature Sensor A Circuit Malfunction"),
  ("P0301", "Cylinder 1 Misfire Detected"),
  ("P0302", "Cylinder 2 Misfire Detected"),
  ("P0303", "Cylinder 3 Misfire Detected"),
  ("P0304", "Cylinder 4 Misfire Detected"),
  ("P0305", "Cylinder 5 Misfire Detected"),
  ("P0306", "Cylinder 6 Misfire Detected"),
  ("P0420", "Catalyst System Efficiency Below Threshold (Bank 1)"),
  ("P0430", "Catalyst System Efficiency Below Threshold (Bank 2)"),
  ("P0440", "Evaporative Emission Control System Malfunction"),
  ("P0442", "Evaporative Emission Control System Leak Detected (Small Leak)"),
  ("P0446", "Evaporative Emission Control System Vent Control Circuit Malfunction"),
  ("P0456", "Evaporative Emission Control System Leak Detected (Very Small Leak)"),
  ("P0700", "Transmission Control System Malfunction")]

/-- `OBD2Connector._get_dtc_description`: dictionary lookup with the
placeholder default. -/
def getDtcDescription (code : String) : String :=
  match dtcDescriptions.find? (fun p => p.1 == code) with
  | some p => p.2
  | none => "Unknown code description"

/-- One parsed trouble code; the Python dictionary keys are `code`,
`description` and `type` (here `kind`, since `type` is a Lean keyword). -/
structure TroubleCode where
  code : String
  description : String
  kind : String
deriving DecidableEq, Repr

/-- The slot loop of `_parse_dtcs`: four characters per slot, incomplete
trailing slots dropped, `0000` skipped, others rendered via `decodeDtcSlot`
and paired with their looked-up description and the requested kind. -/
def parseDtcEntries (dtcType : String) : List Char → List TroubleCode
  | c0 :: c1 :: c2 :: c3 :: rest =>
      let tail := parseDtcEntries dtcType rest
      if c0 = '0' && c1 = '0' && c2 = '0' && c3 = '0' then tail
      else
        let code := decodeDtcSlot c0 c1 c2 c3
        ⟨code, getDtcDescription code, dtcType⟩ :: tail
  | _ => []

/-- `OBD2Connector._parse_dtcs`: sentinel check on the raw response, space
stripping, mode-specific prefix search, then the slot loop on the remainder. -/
def parseDtcs (response : String) (dtcType : String) : List TroubleCode :=
  if response.toList.isEmpty
      || strHasSub "NO DATA" response || strHasSub "ERROR" response then []
  else
    let r := stripSpaces response.toList
    let pfx : Option (List Char) :=
      if dtcType = "stored" then some ['4', '3']
      else if dtcType = "pending" then some ['4', '7']
      else if dtcType = "permanent" then some ['4', 'A']
      else none
    match pfx with
    | none => []
    | some p =>
        match findSubIdx p r with
        | none => []
        | some i => parseDtcEntries dtcType (r.drop (i + p.length))

/-- The `{"P": "0", "C": "1", "B": "2", "U": "3"}` lookup of
`get_freeze_frame_data`; only reached under the `dtc_code[0] in "PCBU"`
guard, so the final branch is the `U` case. -/
def dtcLetterToDigit (c : Char) : String :=
  if c = 'P' then "0"
  else if c = 'C' then "1"
  else if c = 'B' then "2"
  else "3"

/-- The nibble encoding `hex_dtc = dtc_type + dtc_code[1:]` built by
`get_freeze_frame_data` for a five-character code. -/
def dtcToHex (dtcCode : String) : String :=
  dtcLetterToDigit (dtcCode.toList.headD ' ') ++ String.mk (dtcCode.toList.drop 1)

/-- Command construction of `get_freeze_frame_data`: `"02"` bare, or
`"02" + PID_FREEZE_DTC + hex_dtc` when a five-character `PCBU` code is given. -/
def freezeFrameCommand (dtcCode : Option String) : String :=
  match dtcCode with
  | none => "02"
  | some code =>
      if code.length = 5 && (['P', 'C', 'B', 'U'].contains (code.toList.headD ' '))
      then "02" ++ "02" ++ dtcToHex code
      else "02"

/-- The eight bits of one byte, most significant first
(`format(value, '08b')`; hex pairs are always below 256). -/
def byteBits (v : Nat) : List Bool :=
  [v / 128 % 2 == 1, v / 64 % 2 == 1, v / 32 % 2 == 1, v / 16 % 2 == 1,
   v / 8 % 2 == 1, v / 4 % 2 == 1, v / 2 % 2 == 1, v % 2 == 1]

/-- PIDs named by the set bits: bit `i` of the bitmask marks PID
`start_pid + i`, rendered with `format(_, '02X')`. -/
def pidsFromBits (startPid : Nat) : List Bool → List String
  | [] => []
  | b :: rest =>
      (if b then [toHex2 startPid] else []) ++ pidsFromBits (startPid + 1) rest

/-- Dictionary-key insertion `self.supported_pids[pid] = True`: adds the key
at the end if absent, keeps insertion order otherwise. -/
def insertPid (ps : List String) (p : String) : List String :=
  if ps.contains p then ps else ps ++ [p]

/-- The `pid_ranges` anchors of `_get_supported_pids`, paired with
`int(range_start, 16)`. -/
def pidRanges : List (String × Nat) :=
  [("00", 0x00), ("20", 0x20), ("40", 0x40), ("60", 0x60),
   ("80", 0x80), ("A0", 0xA0), ("C0", 0xC0), ("E0", 0xE0)]

/-- One iteration of the `_get_supported_pids` range loop over an abstract
per-command response function `send` (what `_send_command` returned). A
missing or empty payload, or a hex conversion failure, leaves the stored
dictionary untouched; otherwise every set bit inserts its PID. -/
def discoverRange (send : String → String) (acc : List String)
    (rangeStart : String) (rangeVal : Nat) : List String :=
  match parsePidResponse (send ("01" ++ rangeStart)) rangeStart with
  | none => acc
  | some data =>
      if data.toList.isEmpty then acc
      else
        match hexToBytes data.toList with
        | none => acc
        | some bs =>
            ((bs.map byteBits).flatten |> pidsFromBits (rangeVal + 1)).foldl insertPid acc

/-- `OBD2Connector._get_supported_pids`: folds the range loop over the prior
contents of `self.supported_pids` — the dictionary is never cleared first. -/
def getSupportedPids (send : String → String) (old : List String) : List String :=
  pidRanges.foldl (fun acc rv => discoverRange send acc rv.1 rv.2) old

/-- Python default whitespace for `str.strip()`. -/
def isPyWS (c : Char) : Bool :=
  c = ' ' || c = '\t' || c = '\n' || c = '\r' || c = '\x0b' || c = '\x0c'

/-- Python `s.strip()`: drop leading and trailing whitespace. -/
def pyStrip (s : String) : String :=
  String.mk (((s.toList.dropWhile isPyWS).reverse.dropWhile isPyWS).reverse)

/-- The read loop of `_send_command`: strip each line, skip blanks and the
command echo, stop at the `>` prompt, otherwise append `line + " "`; the end
of the list models the timeout; the accumulator is finally stripped. -/
def readLoopAux (cmd : String) (acc : String) : List String → String
  | [] => pyStrip acc
  | l :: ls =>
      let line := pyStrip l
      if line.toList.isEmpty || line == cmd then readLoopAux cmd acc ls
      else if line == ">" then pyStrip acc
      else readLoopAux cmd (acc ++ line ++ " ") ls

/-- `OBD2Connector._send_command` together with its write trace: when the
link is not open it returns the plain string `"ERROR"` writing nothing;
otherwise it writes the command and runs the read loop on the lines the
environment delivers for it. -/
def sendCommand (linkOpen : Bool) (lines : String → List String)
    (cmd : String) : String × List String :=
  if linkOpen then (readLoopAux cmd "" (lines cmd), [cmd]) else ("ERROR", [])

/-- The mutable connector attributes the verified operations read:
`self.connected`, the openness of `self.serial_connection`, and the keys of
`self.supported_pids`. -/
structure ConnState where
  connected : Bool
  linkOpen : Bool
  supportedPids : List String

/-- `OBD2Connector.is_pid_supported`: key membership in `supported_pids`. -/
def isPidSupported (c : ConnState) (pid : String) : Bool :=
  c.supportedPids.contains pid

/-- A sensor reading as returned by `read_pid`: the decoded dictionary with
the extra `raw_response` key. -/
structure ReadResult where
  name : String
  value : PidValue
  unit : String
  raw : String
deriving DecidableEq, Repr

/-- `OBD2Connector.read_pid` with its write trace: connected and supported
guards first (no command is written when either fails), then one `01<pid>`
request, response parsing, and decoding; `_decode_pid` always returns a
truthy dictionary, so any parsed nonempty payload yields a result. -/
def readPid (c : ConnState) (lines : String → List String)
    (pid : String) : Option ReadResult × List String :=
  if !c.connected then (none, [])
  else if !isPidSupported c pid then (none, [])
  else
    let sc := sendCommand c.linkOpen lines ("01" ++ pid)
    (match parsePidResponse sc.1 pid with
      | none => none
      | some data =>
          if data.toList.isEmpty then none
          else
            let r := decodePid pid data
            some ⟨r.name, r.value, r.unit, sc.1⟩,
     sc.2)

/-- The `pids_to_try` list of `read_all_sensor_data`. -/
def pidsToTry : List String :=
  ["04", "05", "06", "07", "08", "09", "0A", "0B",
   "0C", "0D", "0E", "0F", "10", "11", "1F"]

/-- The per-PID loop of `read_all_sensor_data`: unsupported PIDs are skipped
without a request, supported ones are read and kept when a result arrives. -/
def readPidsLoop (c : ConnState) (lines : String → List String) :
    List String → List (String × ReadResult) × List String
  | [] => ([], [])
  | pid :: rest =>
      let tail := readPidsLoop c lines rest
      if isPidSupported c pid then
        match readPid c lines pid with
        | (some r, tr) => ((pid, r) :: tail.1, tr ++ tail.2)
        | (none, tr) => (tail.1, tr ++ tail.2)
      else tail

/-- `OBD2Connector.read_all_sensor_data` with its write trace. -/
def readAllSensorData (c : ConnState) (lines : String → List String) :
    List (String × ReadResult) × List String :=
  if !c.connected then ([], []) else readPidsLoop c lines pidsToTry

/-- `OBD2Connector.clear_dtcs` with its write trace: connected guard, then a
Mode 04 request whose success is the substring test `"44" in response`. -/
def clearDtcs (c : ConnState) (lines : String → List String) :
    Bool × List String :=
  if !c.connected then (false, [])
  else
    let sc := sendCommand c.linkOpen lines "04"
    (strHasSub "44" sc.1, sc.2)

/-- `OBD2Connector.get_freeze_frame_data` with its write trace: connected
guard, command construction, sentinel filtering, and the raw payload result. -/
def getFreezeFrameData (c : ConnState) (lines : String → List String)
    (dtcCode : Option String) : List (String × String) × List String :=
  if !c.connected then ([], [])
  else
    let sc := sendCommand c.linkOpen lines (freezeFrameCommand dtcCode)
    if sc.1.toList.isEmpty || strHasSub "NO DATA" sc.1 || strHasSub "ERROR" sc.1
    then ([], sc.2)
    else ([("raw", sc.1)], sc.2)

/-- `OBD2Connector.disconnect` with its write trace: when the link is open it
resets the adapter, closes, and clears `connected`; otherwise it returns
`True` immediately, touching nothing and writing nothing. -/
def disconnect (c : ConnState) (lines : String → List String) :
    (Bool × ConnState) × List String :=
  if c.linkOpen then
    let sc := sendCommand c.linkOpen lines "ATZ"
    ((true, { c with linkOpen := false, connected := false }), sc.2)
  else ((true, c), [])

/-- Inserting a key never removes an existing key. -/
theorem mem_insertPid (ps : List String) (q p : String) (h : p ∈ ps) :
    p ∈ insertPid ps q := by
  unfold insertPid
  split
  · exact h
  · exact List.mem_append_left _ h

/-- Folding key insertions never removes an existing key. -/
theorem mem_foldl_insertPid (l : List String) (ps : List String) (p : String)
    (h : p ∈ ps) : p ∈ l.foldl insertPid ps := by
  induction l generalizing ps with
  | nil => exact h
  | cons q rest ih => exact ih _ (mem_insertPid _ _ _ h)

/-- One discovery range never removes a previously stored PID. -/
theorem mem_discoverRange (send : String → String) (old : List String)
    (r : String) (v : Nat) (p : String) (h : p ∈ old) :
    p ∈ discoverRange send old r v := by
  unfold discoverRange
  split
  · exact h
  · split
    · exact h
    · split
      · exact h
      · exact mem_foldl_insertPid _ _ _ h

/-- The whole discovery fold never removes a previously stored PID. -/
theorem mem_foldl_discover (send : String → String) (rs : List (String × Nat))
    (old : List String) (p : String) (h : p ∈ old) :
    p ∈ rs.foldl (fun acc rv => discoverRange send acc rv.1 rv.2) old := by
  induction rs generalizing old with
  | nil => exact h
  | cons rv rest ih => exact ih _ (mem_discoverRange _ _ _ _ _ h)

/-- C1: for every PID of the spec's formula table and every raw payload whose
hex conversion yields enough bytes, `decodePid` computes exactly the listed
SAE formula with the listed unit — engine load `A*100/255` %, coolant temp
`A-40` °C, fuel trims `(A-128)*100/128` %, fuel pressure `A*3` kPa, intake
pressure `A` kPa, RPM `((A*256)+B)/4` rpm, speed `A` km/h, timing advance
`(A-128)/2` °, intake temp `A-40` °C, MAF `((A*256)+B)/100` g/s, throttle
`A*100/255` %, run time `(A*256)+B` s — and in particular the RPM payload
`1A F8` decodes to exactly 1726. -/
theorem C1_sensor_formulas :
    (∀ (d : String) (a : Nat) (rest : List Nat),
        hexToBytes d.toList = some (a :: rest) →
        decodePid "04" d = ⟨"Engine Load", .num ((a : ℚ) * 100 / 255), "%"⟩) ∧
    (∀ (d : String) (a : Nat) (rest : List Nat),
        hexToBytes d.toList = some (a :: rest) →
        decodePid "05" d = ⟨"Coolant Temperature", .num ((a : ℚ) - 40), "°C"⟩) ∧
    (∀ pid, pid ∈ (["06", "07", "08", "09"] : List String) →
        ∀ (d : String) (a : Nat) (rest : List Nat),
        hexToBytes d.toList = some (a :: rest) →
        (decodePid pid d).value = .num (((a : ℚ) - 128) * 100 / 128) ∧
        (decodePid pid d).unit = "%") ∧
    (∀ (d : String) (a : Nat) (rest : List Nat),
        hexToBytes d.toList = some (a :: rest) →
        decodePid "0A" d = ⟨"Fuel Pressure", .num ((a : ℚ) * 3), "kPa"⟩) ∧
    (∀ (d : String) (a : Nat) (rest : List Nat),
        hexToBytes d.toList = some (a :: rest) →
        decodePid "0B" d = ⟨"Intake Manifold Pressure", .num (a : ℚ), "kPa"⟩) ∧
    (∀ (d : String) (a b : Nat) (rest : List Nat),
        hexToBytes d.toList = some (a :: b :: rest) →
        decodePid "0C" d =
          ⟨"Engine RPM", .num (((a : ℚ) * 256 + (b : ℚ)) / 4), "rpm"⟩) ∧
    (∀ (d : String) (a : Nat) (rest : List Nat),
        hexToBytes d.toList = some (a :: rest) →
        decodePid "0D" d = ⟨"Vehicle Speed", .num (a : ℚ), "km/h"⟩) ∧
    (∀ (d : String) (a : Nat) (rest : List Nat),
        hexToBytes d.toList = some (a :: rest) →
        decodePid "0E" d = ⟨"Timing Advance", .num (((a : ℚ) - 128) / 2), "°"⟩) ∧
    (∀ (d : String) (a : Nat) (rest : List Nat),
        hexToBytes d.toList = some (a :: rest) →
        decodePid "0F" d = ⟨"Intake Air Temperature", .num ((a : ℚ) - 40), "°C"⟩) ∧
    (∀ (d : String) (a b : Nat) (rest : List Nat),
        hexToBytes d.toList = some (a :: b :: rest) →
        decodePid "10" d =
          ⟨"Mass Air Flow", .num (((a : ℚ) * 256 + (b : ℚ)) / 100), "g/s"⟩) ∧
    (∀ (d : String) (a : Nat) (rest : List Nat),
        hexToBytes d.toList = some (a :: rest) →
        decodePid "11" d = ⟨"Throttle Position", .num ((a : ℚ) * 100 / 255), "%"⟩) ∧
    (∀ (d : String) (a b : Nat) (rest : List Nat),
        hexToBytes d.toList = some (a :: b :: rest) →
        decodePid "1F" d =
          ⟨"Run Time Since Engine Start", .num ((a : ℚ) * 256 + (b : ℚ)), "s"⟩) ∧
    decodePid "0C" "1AF8" = ⟨"Engine RPM", .num 1726, "rpm"⟩ := by
  refine ⟨?_, ?_, ?_, ?_, ?_, ?_, ?_, ?_, ?_, ?_, ?_, ?_, ?_⟩
  · intro d a rest h
    have h' : hexToBytes d.data = some (a :: rest) := h
    simp [decodePid, decodeFromBytes, h']
  · intro d a rest h
    have h' : hexToBytes d.data = some (a :: rest) := h
    simp [decodePid, decodeFromBytes, h']
  · intro pid hm d a rest h
    have h' : hexToBytes d.data = some (a :: rest) := h
    fin_cases hm <;> simp [decodePid, decodeFromBytes, h']
  · intro d a rest h
    have h' : hexToBytes d.data = some (a :: rest) := h
    simp [decodePid, decodeFromBytes, h']
  · intro d a rest h
    have h' : hexToBytes d.data = some (a :: rest) := h
    simp [decodePid, decodeFromBytes, h']
  · intro d a b rest h
    have h' : hexToBytes d.data = some (a :: b :: rest) := h
    simp [decodePid, decodeFromBytes, h']
  · intro d a rest h
    have h' : hexToBytes d.data = some (a :: rest) := h
    simp [decodePid, decodeFromBytes, h']
  · intro d a rest h
    have h' : hexToBytes d.data = some (a :: rest) := h
    simp [decodePid, decodeFromBytes, h']
  · intro d a rest h
    have h' : hexToBytes d.data = some (a :: rest) := h
    simp [decodePid, decodeFromBytes, h']
  · intro d a b rest h
    have h' : hexToBytes d.data = some (a :: b :: rest) := h
    simp [decodePid, decodeFromBytes, h']
  · intro d a rest h
    have h' : hexToBytes d.data = some (a :: rest) := h
    simp [decodePid, decodeFromBytes, h']
  · intro d a b rest h
    have h' : hexToBytes d.data = some (a :: b :: rest) := h
    simp [decodePid, decodeFromBytes, h']
  · have h' : hexToBytes ("1AF8").data = some (26 :: 248 :: []) := by decide
    simp [decodePid, decodeFromBytes, h']
    norm_num

/-- Witness for C1: each formula conjunct applied at a concrete payload. -/
theorem C1_sensor_formulas_witness :
    decodePid "04" "FF" = ⟨"Engine Load", .num ((255 : ℚ) * 100 / 255), "%"⟩ ∧
    decodePid "05" "5A" = ⟨"Coolant Temperature", .num ((90 : ℚ) - 40), "°C"⟩ ∧
    ((decodePid "06" "80").value = .num (((128 : ℚ) - 128) * 100 / 128) ∧
      (decodePid "06" "80").unit = "%") ∧
    decodePid "0A" "64" = ⟨"Fuel Pressure", .num ((100 : ℚ) * 3), "kPa"⟩ ∧
    decodePid "0B" "42" = ⟨"Intake Manifold Pressure", .num (66 : ℚ), "kPa"⟩ ∧
    decodePid "0C" "1AF8" =
      ⟨"Engine RPM", .num (((26 : ℚ) * 256 + (248 : ℚ)) / 4), "rpm"⟩ ∧
    decodePid "0D" "3C" = ⟨"Vehicle Speed", .num (60 : ℚ), "km/h"⟩ ∧
    decodePid "0E" "90" = ⟨"Timing Advance", .num (((144 : ℚ) - 128) / 2), "°"⟩ ∧
    decodePid "0F" "28" = ⟨"Intake Air Temperature", .num ((40 : ℚ) - 40), "°C"⟩ ∧
    decodePid "10" "0A0B" =
      ⟨"Mass Air Flow", .num (((10 : ℚ) * 256 + (11 : ℚ)) / 100), "g/s"⟩ ∧
    decodePid "11" "33" = ⟨"Throttle Position", .num ((51 : ℚ) * 100 / 255), "%"⟩ ∧
    decodePid "1F" "0102" =
      ⟨"Run Time Since Engine Start", .num ((1 : ℚ) * 256 + (2 : ℚ)), "s"⟩ :=
  ⟨C1_sensor_formulas.1 "FF" 255 [] (by decide),
   C1_sensor_formulas.2.1 "5A" 90 [] (by decide),
   C1_sensor_formulas.2.2.1 "06" (by decide) "80" 128 [] (by decide),
   C1_sensor_formulas.2.2.2.1 "64" 100 [] (by decide),
   C1_sensor_formulas.2.2.2.2.1 "42" 66 [] (by decide),
   C1_sensor_formulas.2.2.2.2.2.1 "1AF8" 26 248 [] (by decide),
   C1_sensor_formulas.2.2.2.2.2.2.1 "3C" 60 [] (by decide),
   C1_sensor_formulas.2.2.2.2.2.2.2.1 "90" 144 [] (by decide),
   C1_sensor_formulas.2.2.2.2.2.2.2.2.1 "28" 40 [] (by decide),
   C1_sensor_formulas.2.2.2.2.2.2.2.2.2.1 "0A0B" 10 11 [] (by decide),
   C1_sensor_formulas.2.2.2.2.2.2.2.2.2.2.1 "33" 51 [] (by decide),
   C1_sensor_formulas.2.2.2.2.2.2.2.2.2.2.2.1 "0102" 1 2 [] (by decide)⟩

/-- C2 (code bug): the DTC decoder renders slot `0301` as the four-character
string `P301`, not the five-character `P0301` the claim requires, so its
output never matches `[PCBU][0-3][0-9A-F]{3}`; the connector's own
description table keys five-character codes such as `P0301`, which the
decoder therefore never hits. -/
theorem C2_dtc_format_eval :
    parseDtcs "430301" "stored" =
      [⟨"P301", "Unknown code description", "stored"⟩] ∧
    "P301".length = 4 ∧
    getDtcDescription "P0301" = "Cylinder 1 Misfire Detected" := by
  refine ⟨?_, ?_, ?_⟩ <;> decide

/-- C3 (code bug): the Mode 03 response `43 01 03 01 71 00 00` decodes to two
trouble codes `P103` and `P171` (the count byte `01` is consumed as code
data), not to the single `P0171` the claim requires; the `0000` slot is
skipped. -/
theorem C3_mode03_scenario_eval :
    parseDtcs "43 01 03 01 71 00 00" "stored" =
      [⟨"P103", "Unknown code description", "stored"⟩,
       ⟨"P171", "Unknown code description", "stored"⟩] := by
  decide

/-- C4 (code bug): encoding `P0301` as done for the freeze-frame command
yields the five-nibble string `00301` (not a 4-hex-character slot), and
running the DTC slot decoder over it yields `P030`, so the round trip fails
to reproduce `P0301`. -/
theorem C4_roundtrip_eval :
    dtcToHex "P0301" = "00301" ∧
    freezeFrameCommand (some "P0301") = "020200301" ∧
    (parseDtcEntries "stored" ("00301".toList)).map TroubleCode.code = ["P030"] := by
  refine ⟨?_, ?_, ?_⟩ <;> decide

/-- C5 (code bug): `_get_supported_pids` only ever adds keys to
`supported_pids`, so a PID stored by a previous connect survives a
rediscovery whose bitmasks exclude it: with prior state `{"0C"}` and every
range probe answering `NO DATA`, the stored set is unchanged and
`is_pid_supported "0C"` still returns `True`. -/
theorem C5_stale_pids :
    (∀ (send : String → String) (old : List String) (p : String),
        p ∈ old → p ∈ getSupportedPids send old) ∧
    getSupportedPids (fun _ => "NO DATA") ["0C"] = ["0C"] ∧
    isPidSupported ⟨true, true, getSupportedPids (fun _ => "NO DATA") ["0C"]⟩ "0C"
      = true := by
  refine ⟨?_, ?_, ?_⟩
  · intro send old p hp
    exact mem_foldl_discover send pidRanges old p hp
  · decide
  · decide

/-- Witness for C5: the persistence conjunct applied to the stale PID. -/
theorem C5_stale_pids_witness :
    "0C" ∈ getSupportedPids (fun _ => "NO DATA") ["0C"] :=
  C5_stale_pids.1 (fun _ => "NO DATA") ["0C"] "0C" (by decide)

/-- C8 (corrected): with the link not open, `_send_command` returns the plain
sentinel string `"ERROR"` without writing to the link and without raising any
typed error; with the link open, a timeout that delivered no lines yields the
empty string. -/
theorem C8_send_error_string :
    (∀ (lines : String → List String) (cmd : String),
        sendCommand false lines cmd = ("ERROR", [])) ∧
    (∀ (lines : String → List String) (cmd : String),
        lines cmd = [] → (sendCommand true lines cmd).1 = "") := by
  constructor
  · intro lines cmd
    rfl
  · intro lines cmd h
    have hs : sendCommand true lines cmd = (readLoopAux cmd "" (lines cmd), [cmd]) := rfl
    rw [hs, h]
    rfl

/-- Witness for C8: the timeout conjunct at a concrete environment. -/
theorem C8_send_error_string_witness :
    (sendCommand true (fun _ => []) "0100").1 = "" :=
  C8_send_error_string.2 (fun _ => []) "0100" rfl

/-- Counterexample for C8 as stated: the not-open failure value is the plain
string `"ERROR"`, identical to the response an open link produces for a
genuine adapter payload line `ERROR` — no typed, distinguishable transport
failure exists. -/
theorem C8_counterexample :
    sendCommand false (fun _ => []) "0100" = ("ERROR", []) ∧
    (sendCommand true (fun _ => ["ERROR", ">"]) "0100").1 = "ERROR" ∧
    (sendCommand false (fun _ => []) "0100").1 =
      (sendCommand true (fun _ => ["ERROR", ">"]) "0100").1 := by
  refine ⟨rfl, ?_, ?_⟩ <;> decide

/-- C9: `disconnect` on a connector whose link is closed (or never opened)
returns `True`, leaves the state untouched, and writes nothing. -/
theorem C9_disconnect_idempotent (c : ConnState) (lines : String → List String)
    (h : c.linkOpen = false) : disconnect c lines = ((true, c), []) := by
  simp [disconnect, h]

/-- Witness for C9 at a concrete closed connector. -/
theorem C9_disconnect_idempotent_witness :
    disconnect ⟨false, false, []⟩ (fun _ => []) = ((true, ⟨false, false, []⟩), []) :=
  C9_disconnect_idempotent ⟨false, false, []⟩ (fun _ => []) rfl

/-- C10: with the connected flag off, `read_pid` returns `None`,
`read_all_sensor_data` and `get_freeze_frame_data` return empty mappings, and
`clear_dtcs` returns `False`, in every case writing no serial command. -/
theorem C10_not_connected_guards (c : ConnState) (lines : String → List String)
    (pid : String) (code : Option String) (h : c.connected = false) :
    readPid c lines pid = (none, []) ∧
    readAllSensorData c lines = ([], []) ∧
    clearDtcs c lines = (false, []) ∧
    getFreezeFrameData c lines code = ([], []) := by
  refine ⟨?_, ?_, ?_, ?_⟩ <;>
    simp [readPid, readAllSensorData, clearDtcs, getFreezeFrameData, h]

/-- Witness for C10 at a concrete disconnected connector. -/
theorem C10_not_connected_guards_witness :
    readPid ⟨false, true, ["0C"]⟩ (fun _ => [">"]) "0C" = (none, []) ∧
    readAllSensorData ⟨false, true, ["0C"]⟩ (fun _ => [">"]) = ([], []) ∧
    clearDtcs ⟨false, true, ["0C"]⟩ (fun _ => [">"]) = (false, []) ∧
    getFreezeFrameData ⟨false, true, ["0C"]⟩ (fun _ => [">"]) (some "P0301")
      = ([], []) :=
  C10_not_connected_guards ⟨false, true, ["0C"]⟩ (fun _ => [">"]) "0C"
    (some "P0301") rfl

/-- Left cancellation for string concatenation. -/
theorem strAppend_left_cancel (s t u : String) (h : s ++ t = s ++ u) : t = u := by
  cases s with | mk ds =>
  cases t with | mk dt =>
  cases u with | mk du =>
  have h2 : ds ++ dt = ds ++ du := congrArg String.data h
  exact congrArg String.mk (List.append_cancel_left h2)

/-- A `read_pid` call writes either nothing or exactly its own command. -/
theorem readPid_snd (c : ConnState) (lines : String → List String) (pid : String) :
    (readPid c lines pid).2 = [] ∨ (readPid c lines pid).2 = ["01" ++ pid] := by
  cases h1 : c.connected
  · simp [readPid, h1]
  · cases h2 : isPidSupported c pid
    · simp [readPid, h1, h2]
    · cases h3 : c.linkOpen <;> simp [readPid, sendCommand, h1, h2, h3]

/-- A `read_pid` result implies the connected and supported guards passed. -/
theorem readPid_some_flags (c : ConnState) (lines : String → List String)
    (q : String) (r : ReadResult) (h : (readPid c lines q).1 = some r) :
    c.connected = true ∧ isPidSupported c q = true := by
  cases h1 : c.connected
  · simp [readPid, h1] at h
  · cases h2 : isPidSupported c q
    · simp [readPid, h1, h2] at h
    · exact ⟨rfl, rfl⟩

/-- An unsupported PID short-circuits `read_pid` before any write. -/
theorem readPid_unsupported (c : ConnState) (lines : String → List String)
    (pid : String) (hsup : isPidSupported c pid = false) :
    readPid c lines pid = (none, []) := by
  cases h1 : c.connected <;> simp [readPid, h1, hsup]

/-- The sensor-scan loop neither reads nor requests an unsupported PID. -/
theorem readPidsLoop_skips (c : ConnState) (lines : String → List String)
    (pid : String) (hsup : isPidSupported c pid = false) (l : List String) :
    pid ∉ (readPidsLoop c lines l).1.map Prod.fst ∧
    ("01" ++ pid) ∉ (readPidsLoop c lines l).2 := by
  induction l with
  | nil => simp [readPidsLoop]
  | cons q rest ih =>
    obtain ⟨ih1, ih2⟩ := ih
    by_cases hq : isPidSupported c q = true
    · have hqp : q ≠ pid := by
        intro e
        rw [e, hsup] at hq
        cases hq
      have hcmd : ("01" ++ q : String) ≠ ("01" ++ pid : String) := by
        intro e
        exact hqp (strAppend_left_cancel _ _ _ e)
      have htr : ∀ x ∈ (readPid c lines q).2, x = "01" ++ q := by
        intro x hx
        rcases readPid_snd c lines q with h0 | h0 <;> rw [h0] at hx
        · cases hx
        · simpa using hx
      rcases hre : readPid c lines q with ⟨r?, tr⟩
      have htr' : ∀ x ∈ tr, x = "01" ++ q := by
        intro x hx
        exact htr x (by rw [hre]; exact hx)
      rcases r? with _ | r
      · constructor
        · simpa [readPidsLoop, hq, hre] using ih1
        · simp only [readPidsLoop, hq, hre]
          intro hmem
          rcases List.mem_append.1 hmem with hA | hB
          · exact hcmd ((htr' _ hA).symm ▸ rfl)
          · exact ih2 hB
      · constructor
        · simp only [readPidsLoop, hq, hre, List.map_cons]
          intro hmem
          rcases List.mem_cons.1 hmem with he | hm
          · exact hqp he.symm
          · exact ih1 hm
        · simp only [readPidsLoop, hq, hre]
          intro hmem
          rcases List.mem_append.1 hmem with hA | hB
          · exact hcmd ((htr' _ hA).symm ▸ rfl)
          · exact ih2 hB
    · simp only [readPidsLoop, hq, if_false]
      exact ⟨ih1, ih2⟩

/-- Any PID whose `read_pid` produced a result stays in the scan output. -/
theorem readPidsLoop_keeps (c : ConnState) (lines : String → List String)
    (q : String) (r : ReadResult) (hsup : isPidSupported c q = true)
    (hr : (readPid c lines q).1 = some r) (l : List String) (hql : q ∈ l) :
    (q, r) ∈ (readPidsLoop c lines l).1 := by
  induction l with
  | nil => cases hql
  | cons p rest ih =>
    rcases List.mem_cons.1 hql with he | hm
    · subst he
      rcases hrp : readPid c lines q with ⟨r?, tr⟩
      have : r? = some r := by rw [hrp] at hr; exact hr
      subst this
      simp [readPidsLoop, hsup, hrp]
    · have htail := ih hm
      by_cases hp : isPidSupported c p = true
      · rcases hrp : readPid c lines p with ⟨r?, tr⟩
        rcases r? with _ | r2
        · simpa [readPidsLoop, hp, hrp] using htail
        · simp only [readPidsLoop, hp, hrp]
          exact List.mem_cons_of_mem _ htail
      · simpa [readPidsLoop, hp] using htail

/-- C6 (corrected): a decoding failure — malformed hex digits or too few
bytes for the PID's formula — yields the sentinel dictionary
`{name: "PID <pid>", value: 0, unit: "error"}` rather than null, and never
raises; `read_pid` surfaces the sentinel as a reading, and every PID whose
read produced a result stays in the scan output, so one bad payload cannot
abort or deplete a scan. -/
theorem C6_decode_failure_sentinel :
    (∀ (pid d : String), hexToBytes d.toList = none →
        decodePid pid d = errorResult pid) ∧
    (∀ pid, pid ∈ (["0C", "10", "1F"] : List String) →
        ∀ (d : String) (a : Nat), hexToBytes d.toList = some [a] →
        decodePid pid d = errorResult pid) ∧
    (∀ pid, pid ∈ pidsToTry → ∀ d : String, hexToBytes d.toList = some [] →
        decodePid pid d = errorResult pid) ∧
    (∀ (c : ConnState) (lines : String → List String) (q : String)
        (r : ReadResult), q ∈ pidsToTry → (readPid c lines q).1 = some r →
        (q, r) ∈ (readAllSensorData c lines).1) := by
  refine ⟨?_, ?_, ?_, ?_⟩
  · intro pid d h
    have h' : hexToBytes d.data = none := h
    simp [decodePid, h']
  · intro pid hm d a h
    have h' : hexToBytes d.data = some [a] := h
    fin_cases hm <;> simp [decodePid, decodeFromBytes, h']
  · intro pid hm d h
    have h' : hexToBytes d.data = some [] := h
    fin_cases hm <;> simp [decodePid, decodeFromBytes, h']
  · intro c lines q r hq hr
    obtain ⟨hc, hs⟩ := readPid_some_flags c lines q r hr
    have h2 : readAllSensorData c lines = readPidsLoop c lines pidsToTry := by
      simp [readAllSensorData, hc]
    rw [h2]
    exact readPidsLoop_keeps c lines q r hs hr pidsToTry hq

/-- Witness for C6: each conjunct applied at a concrete failing payload. -/
theorem C6_decode_failure_sentinel_witness :
    decodePid "0C" "ZZ" = errorResult "0C" ∧
    decodePid "0C" "1A" = errorResult "0C" ∧
    decodePid "04" "" = errorResult "04" ∧
    ("0C", (⟨"PID 0C", .num 0, "error", "410C1A"⟩ : ReadResult)) ∈
      (readAllSensorData ⟨true, true, ["0C"]⟩
        (fun c => if c = "010C" then ["410C1A", ">"] else [">"])).1 :=
  ⟨C6_decode_failure_sentinel.1 "0C" "ZZ" (by decide),
   C6_decode_failure_sentinel.2.1 "0C" (by decide) "1A" 26 (by decide),
   C6_decode_failure_sentinel.2.2.1 "04" (by decide) "" (by decide),
   C6_decode_failure_sentinel.2.2.2 ⟨true, true, ["0C"]⟩
     (fun c => if c = "010C" then ["410C1A", ">"] else [">"]) "0C"
     ⟨"PID 0C", .num 0, "error", "410C1A"⟩ (by decide) (by decide)⟩

/-- Counterexample for C6 as stated: for supported PID `0C` answered with the
one-byte payload `1A` (insufficient for the RPM formula), `read_pid` returns
a non-null sentinel reading with unit `"error"` — not null. -/
theorem C6_counterexample :
    (readPid ⟨true, true, ["0C"]⟩
        (fun c => if c = "010C" then ["410C1A", ">"] else [">"]) "0C").1
      = some ⟨"PID 0C", .num 0, "error", "410C1A"⟩ ∧
    (readPid ⟨true, true, ["0C"]⟩
        (fun c => if c = "010C" then ["410C1A", ">"] else [">"]) "0C").1
      ≠ none := by
  exact ⟨by decide, by decide⟩

/-- C7: a PID absent from the discovered capability set is never requested:
`read_pid` returns `None` writing no command, and the per-PID loop of
`read_all_sensor_data` neither includes that PID in its result nor writes the
`01<pid>` request for it. -/
theorem C7_unsupported_no_request (c : ConnState) (lines : String → List String)
    (pid : String) (hsup : isPidSupported c pid = false) :
    readPid c lines pid = (none, []) ∧
    pid ∉ (readAllSensorData c lines).1.map Prod.fst ∧
    ("01" ++ pid) ∉ (readAllSensorData c lines).2 := by
  refine ⟨readPid_unsupported c lines pid hsup, ?_, ?_⟩
  · cases h1 : c.connected
    · simp [readAllSensorData, h1]
    · have h2 : readAllSensorData c lines = readPidsLoop c lines pidsToTry := by
        simp [readAllSensorData, h1]
      rw [h2]
      exact (readPidsLoop_skips c lines pid hsup pidsToTry).1
  · cases h1 : c.connected
    · simp [readAllSensorData, h1]
    · have h2 : readAllSensorData c lines = readPidsLoop c lines pidsToTry := by
        simp [readAllSensorData, h1]
      rw [h2]
      exact (readPidsLoop_skips c lines pid hsup pidsToTry).2

/-- Witness for C7: a connector supporting only PID `04` asked for `0C`. -/
theorem C7_unsupported_no_request_witness :
    readPid ⟨true, true, ["04"]⟩ (fun _ => [">"]) "0C" = (none, []) ∧
    "0C" ∉ (readAllSensorData ⟨true, true, ["04"]⟩ (fun _ => [">"])).1.map Prod.fst ∧
    ("01" ++ "0C") ∉ (readAllSensorData ⟨true, true, ["04"]⟩ (fun _ => [">"])).2 :=
  C7_unsupported_no_request ⟨true, true, ["04"]⟩ (fun _ => [">"]) "0C" (by decide)

end OBD2
